import Mathlib

/-!
Shallow embedding of the Logo_Maker repository's core logic:
the config generator (`src/api/_lib/logoConfig.js`), the `/api/generate`
serverless handler, the SVG exporter and the 2D canvas renderer
(`src/logo-designer/src/LogoCanvas.jsx`).

JavaScript's `Math.random()` calls are modelled by an explicit stream
`σ : ℕ → ℚ` of values (each assumed in `[0,1)` where a theorem needs it),
consumed in the same order as the source executes the calls.  Numbers are
rationals; decimal literals of the source are written as exact fractions.
-/

namespace LogoMaker

/-- One four-color palette entry of `COLOR_PALETTES` (`logoConfig.js`). -/
structure Palette where
  primary : String
  secondary : String
  accent : String
  bg : String
  deriving DecidableEq

/-- `COLOR_PALETTES` from `logoConfig.js`, in source (insertion) order:
keys are `Object.keys` order. -/
def COLOR_PALETTES : List (String × List Palette) := [
  ("vibrant", [
    ⟨"#FF6B6B", "#4ECDC4", "#FFE66D", "#1A1A2E"⟩,
    ⟨"#FF9A3C", "#FF6392", "#B5FFE1", "#16213E"⟩,
    ⟨"#7B2FBE", "#EA60DA", "#C0FDFB", "#0F0E17"⟩,
    ⟨"#FD3A69", "#FECD1A", "#FF884B", "#1A1A2E"⟩]),
  ("neon", [
    ⟨"#39FF14", "#FF073A", "#00FFFF", "#0D0D0D"⟩,
    ⟨"#FF00FF", "#00FFFF", "#FFFF00", "#050505"⟩,
    ⟨"#BF00FF", "#00FF41", "#FF9900", "#0a0a0a"⟩,
    ⟨"#FF6600", "#00FFCC", "#FF0099", "#111111"⟩]),
  ("pastel", [
    ⟨"#FFB3BA", "#FFDFBA", "#FFFFBA", "#FFF5F5"⟩,
    ⟨"#BAFFC9", "#BAE1FF", "#FFB3DE", "#F0FFF4"⟩,
    ⟨"#C9B1FF", "#B1E8FF", "#FFB1C1", "#F5F0FF"⟩,
    ⟨"#FFC8DD", "#BDE0FE", "#A2D2FF", "#FEFCE8"⟩]),
  ("monochrome", [
    ⟨"#FFFFFF", "#AAAAAA", "#555555", "#0A0A0A"⟩,
    ⟨"#F5F5F5", "#CCCCCC", "#888888", "#111111"⟩,
    ⟨"#111111", "#444444", "#777777", "#F5F5F5"⟩,
    ⟨"#222222", "#666666", "#BBBBBB", "#FFFFFF"⟩]),
  ("golden", [
    ⟨"#FFD700", "#FFA500", "#FF8C00", "#1C1408"⟩,
    ⟨"#F5C518", "#E8A400", "#D4901A", "#0F0A00"⟩,
    ⟨"#FFD700", "#C0A000", "#FFEC8B", "#18140A"⟩,
    ⟨"#DAA520", "#B8860B", "#FFD700", "#1A1200"⟩]),
  ("ocean", [
    ⟨"#00B4D8", "#0077B6", "#90E0EF", "#03045E"⟩,
    ⟨"#48CAE4", "#023E8A", "#ADE8F4", "#03045E"⟩,
    ⟨"#06D6A0", "#0496FF", "#FFBC42", "#0A1628"⟩,
    ⟨"#4CC9F0", "#4361EE", "#7400B8", "#03045E"⟩]),
  ("fire", [
    ⟨"#FF4500", "#FF7519", "#FFD700", "#1A0500"⟩,
    ⟨"#FF6D00", "#FF9500", "#FFBE0B", "#150300"⟩,
    ⟨"#D62828", "#F77F00", "#FCBF49", "#1A0000"⟩,
    ⟨"#E63946", "#457B9D", "#F1FAEE", "#1D3557"⟩]),
  ("galaxy", [
    ⟨"#7B2FBE", "#2176FF", "#FF6B6B", "#050510"⟩,
    ⟨"#6A0572", "#AB83A1", "#F9A620", "#080016"⟩,
    ⟨"#240046", "#7B2FBE", "#FF6B9D", "#03000D"⟩,
    ⟨"#560BAD", "#480CA8", "#B5179E", "#03071E"⟩])]

/-- `Object.keys(COLOR_PALETTES)`. -/
def paletteKeys : List String := COLOR_PALETTES.map (·.1)

/-- `COLOR_PALETTES[key]` (empty list plays the role of `undefined`;
never reached for keys actually produced by `resolveKey`). -/
def palettesFor (key : String) : List Palette :=
  match COLOR_PALETTES.find? (·.1 == key) with
  | some kv => kv.2
  | none => []

def SHAPE_STYLES : List String :=
  ["hexagon", "circle", "diamond", "shield", "star", "badge", "infinity", "arch"]

def FONT_STYLES : List String :=
  ["serif", "sans", "mono", "display", "cursive", "geometric", "rounded", "sharp"]

def EFFECTS : List String :=
  ["glow", "shadow", "gradient", "outline", "emboss", "neon", "metallic", "glass"]

def LAYOUT_MODES : List String :=
  ["centered", "stacked", "horizontal", "diagonal", "circular", "split", "badge", "monogram"]

def PATTERNS : List String :=
  ["none", "dots", "lines", "grid", "waves", "hexagons", "triangles", "circuits"]

/-- `Math.floor(r * n)` as a list index (`r` is one `Math.random()` draw).
`Rat.floor` is used (rather than the `⌊·⌋` notation) so that the definition
evaluates by kernel reduction; the two agree, see `ratFloor_eq`. -/
def randIdx (n : ℕ) (r : ℚ) : ℕ := (r * (n : ℚ)).floor.toNat

/-- `arr[Math.floor(r * arr.length)]` for a string array. -/
def jsIdx (arr : List String) (r : ℚ) : String := arr.getD (randIdx arr.length r) ""

/-- The `pick` helper of `generateLogoConfig`:
`val === 'random' || !arr.includes(val) ? arr[Math.floor(Math.random()*arr.length)] : val`. -/
def pick (arr : List String) (val : String) (r : ℚ) : String :=
  if val = "random" ∨ val ∉ arr then jsIdx arr r else val

/-- The palette-category resolution inside `pickPalette`:
`paletteType === 'random' ? keys[Math.floor(Math.random()*keys.length)]
 : (paletteType in COLOR_PALETTES ? paletteType : keys[0])`. -/
def resolveKey (paletteType : String) (r1 : ℚ) : String :=
  if paletteType = "random" then jsIdx paletteKeys r1
  else if paletteType ∈ paletteKeys then paletteType
  else paletteKeys.getD 0 ""

/-- A palette together with the `paletteName` tag that `pickPalette` spreads in. -/
structure ResolvedPalette where
  primary : String
  secondary : String
  accent : String
  bg : String
  paletteName : String
  deriving DecidableEq

/-- `{ ...palette, paletteName: key }`. -/
def withName (p : Palette) (key : String) : ResolvedPalette :=
  ⟨p.primary, p.secondary, p.accent, p.bg, key⟩

/-- Forget the `paletteName` tag again (the four colors of a resolved palette). -/
def paletteProj (p : ResolvedPalette) : Palette :=
  ⟨p.primary, p.secondary, p.accent, p.bg⟩

def defaultPalette : Palette := ⟨"", "", "", ""⟩

/-- `pickPalette` of `generateLogoConfig`: resolve the category with `r1`
(only consulted for `paletteType === 'random'`), then pick the concrete
variant with `r2`. -/
def pickPalette (paletteType : String) (r1 r2 : ℚ) : ResolvedPalette :=
  let key := resolveKey paletteType r1
  let arr := palettesFor key
  withName (arr.getD (randIdx arr.length r2) defaultPalette) key

/-- The six-field filter object destructured by `generateLogoConfig`;
each field defaults to the sentinel `"random"`. -/
structure Options where
  paletteType : String := "random"
  shapeStyle : String := "random"
  fontStyle : String := "random"
  effect : String := "random"
  layoutMode : String := "random"
  pattern : String := "random"
  deriving DecidableEq

def defaultOptions : Options := {}

/-- One entry of the `bezierCurves` array (4 random offsets in [-100,100)). -/
structure Bezier where
  cx1 : ℚ
  cy1 : ℚ
  cx2 : ℚ
  cy2 : ℚ
  deriving DecidableEq

/-- The object returned by `generateLogoConfig`. -/
structure LogoConfig where
  id : String
  name : String
  initials : String
  palette : ResolvedPalette
  shape : String
  fontStyle : String
  effect : String
  layout : String
  pattern : String
  rotation : ℚ
  scale : ℚ
  shapeSize : ℚ
  fontSize : ℚ
  letterSpacing : ℚ
  borderRadius : ℚ
  strokeWidth : ℚ
  glowIntensity : ℚ
  innerRotation : ℚ
  decorCount : ℕ
  bezierCurves : List Bezier
  hslShift : ℕ
  timestamp : ℤ
  deriving DecidableEq

/-- `w[0]?.toUpperCase() || ''` on one word of the split. -/
def firstUpper : List Char → List Char
  | [] => []
  | c :: _ => [c.toUpper]

/-- JavaScript `str.split(' ')` on the character list: splits at every single
space, keeping empty segments (`"".split(' ') === [""]`). -/
def splitOnSpace : List Char → List (List Char)
  | [] => [[]]
  | c :: rest =>
    if c = ' ' then [] :: splitOnSpace rest
    else
      match splitOnSpace rest with
      | [] => [[c]]
      | w :: ws => (c :: w) :: ws

/-- The initials expression of `generateLogoConfig` (line 112):
`name.split(' ').map(w => w[0]?.toUpperCase() || '').join('').slice(0, 3)
 || name[0]?.toUpperCase() || 'L'`. -/
def initialsOf (name : String) : String :=
  let joined := ((splitOnSpace name.data).map firstUpper).flatten
  let sliced := joined.take 3
  if sliced ≠ [] then ⟨sliced⟩
  else
    match name.data with
    | [] => "L"
    | c :: _ => ⟨[c.toUpper]⟩

/-- Stateful `pick`: consumes one stream draw only in the random branch
(JavaScript evaluates `Math.random()` lazily inside the ternary). -/
def pickSt (arr : List String) (val : String) (σ : ℕ → ℚ) (i : ℕ) : String × ℕ :=
  if val = "random" ∨ val ∉ arr then (pick arr val (σ i), i + 1) else (val, i)

/-- Stateful `pickPalette`: the category draw happens only for `"random"`,
the variant draw always happens. -/
def pickPaletteSt (paletteType : String) (σ : ℕ → ℚ) (i : ℕ) : ResolvedPalette × ℕ :=
  if paletteType = "random" then (pickPalette paletteType (σ i) (σ (i + 1)), i + 2)
  else (pickPalette paletteType 0 (σ i), i + 1)

/-- `generateLogoConfig(name, options)` from `logoConfig.js`.  The stream `σ`
supplies the `Math.random()` draws in source execution order; `uuid` stands
for `randomUUID()` and `now` for `Date.now()`. -/
def generateLogoConfig (name : String) (options : Options) (σ : ℕ → ℚ)
    (uuid : String) (now : ℤ) : LogoConfig :=
  let rotation := σ 0 * 360
  let scale := 7/10 + σ 1 * (6/10)
  let shapeSize := 120 + σ 2 * 80
  let fontSize := 24 + σ 3 * 24
  let letterSpacing := σ 4 * 8 - 2
  let borderRadius := σ 5 * 50
  let strokeWidth := 1 + σ 6 * 4
  let glowIntensity := 5 + σ 7 * 20
  let innerRotation := σ 8 * 30 - 15
  let decorCount := 3 + (σ 9 * 8).floor.toNat
  let pp := pickPaletteSt options.paletteType σ 10
  let sh := pickSt SHAPE_STYLES options.shapeStyle σ pp.2
  let fo := pickSt FONT_STYLES options.fontStyle σ sh.2
  let ef := pickSt EFFECTS options.effect σ fo.2
  let la := pickSt LAYOUT_MODES options.layoutMode σ ef.2
  let pa := pickSt PATTERNS options.pattern σ la.2
  let i0 := pa.2
  let bezierCurves := (List.range 2).map fun k =>
    (⟨σ (i0 + 4*k) * 200 - 100, σ (i0 + 4*k + 1) * 200 - 100,
      σ (i0 + 4*k + 2) * 200 - 100, σ (i0 + 4*k + 3) * 200 - 100⟩ : Bezier)
  let hslShift := (σ (i0 + 8) * 360).floor.toNat
  { id := uuid
    name := name
    initials := initialsOf name
    palette := pp.1
    shape := sh.1
    fontStyle := fo.1
    effect := ef.1
    layout := la.1
    pattern := pa.1
    rotation := rotation
    scale := scale
    shapeSize := shapeSize
    fontSize := fontSize
    letterSpacing := letterSpacing
    borderRadius := borderRadius
    strokeWidth := strokeWidth
    glowIntensity := glowIntensity
    innerRotation := innerRotation
    decorCount := decorCount
    bezierCurves := bezierCurves
    hslShift := hslShift
    timestamp := now }

/-- JavaScript `str.trim()`: drop whitespace from both ends. -/
def jsTrim (s : String) : String :=
  ⟨(((s.data.dropWhile Char.isWhitespace).reverse).dropWhile Char.isWhitespace).reverse⟩

/-- JavaScript `str.slice(0, k)`. -/
def jsSlice (s : String) (k : ℕ) : String := ⟨s.data.take k⟩

/-- A parsed `/api/generate` request body together with the HTTP method.
`name = none` models a missing or non-string `name`; `count = none` models a
missing or non-numeric `count` (both make `parseInt(count,10) || 9` yield 9
through the destructuring default resp. the `|| 9` fallback). -/
structure Req where
  method : String
  name : Option String
  count : Option ℤ
  filters : Options

/-- The response the handler sends: status code, optional `error` body field,
optional `logos` field, optional echoed `name` field. -/
structure Resp where
  status : ℕ
  error : Option String
  logos : Option (List LogoConfig)
  rname : Option String

/-- `parseInt(count, 10) || 9` (with the destructuring default `count = 9`):
a missing/non-numeric count and a zero count both fall back to 9. -/
def jsParsedCount : Option ℤ → ℤ
  | none => 9
  | some c => if c = 0 then 9 else c

/-- `Math.min(Math.max(1, parseInt(count, 10) || 9), 12)`. -/
def batchSize (c : Option ℤ) : ℕ := (min (max 1 (jsParsedCount c)) 12).toNat

/-- The `POST /api/generate` handler (`src/unnamed/part_003`).  `σ k` is the
random stream consumed by the `k`-th generated logo, `uuid k` its
`randomUUID()` result, `now` the shared `Date.now()` value. -/
def handler (req : Req) (σ : ℕ → ℕ → ℚ) (uuid : ℕ → String) (now : ℤ) : Resp :=
  if req.method = "OPTIONS" then ⟨204, none, none, none⟩
  else if req.method ≠ "POST" then ⟨405, some "Method not allowed", none, none⟩
  else
    match req.name with
    | none => ⟨400, some "A logo name is required.", none, none⟩
    | some nm =>
      if jsTrim nm = "" then ⟨400, some "A logo name is required.", none, none⟩
      else
        let trimmed := jsSlice (jsTrim nm) 50
        ⟨200, none,
          some ((List.range (batchSize req.count)).map fun k =>
            generateLogoConfig trimmed req.filters (σ k) (uuid k) now),
          some trimmed⟩

/-- JavaScript `str.toUpperCase()` (ASCII letters, as used by the repo). -/
def jsToUpper (s : String) : String := ⟨s.data.map Char.toUpper⟩

/-- Decimal string of an integer. -/
def intStr (z : ℤ) : String := toString z

/-- Rendering of a JS number into the SVG text.  Integral values are printed
exactly (the only values the theorems below evaluate); non-integral values are
printed as `num/den`, an admitted approximation of IEEE-double decimal
printing, irrelevant to the stated claims. -/
def qStr (q : ℚ) : String :=
  if q.den = 1 then intStr q.num else intStr q.num ++ "/" ++ intStr (q.den : ℤ)

/-- `Math.min(64, 560 / Math.max(n.length, 1))` of the SVG exporter. -/
def svgFontSize (n : String) : ℚ := min 64 (560 / max (n.length : ℚ) 1)

/-- `letterSpacing || 2` (a zero letter-spacing is falsy). -/
def lsOr2 (ls : ℚ) : ℚ := if ls = 0 then 2 else ls

def svgS1 : String :=
  "<svg xmlns=\"http://www.w3.org/2000/svg\" width=\"600\" height=\"600\" viewBox=\"0 0 600 600\">\n  <defs>\n    <linearGradient id=\"fill\" x1=\"0%\" y1=\"0%\" x2=\"100%\" y2=\"100%\">\n      <stop offset=\"0%\" style=\"stop-color:"

def svgS2 : String :=
  ";stop-opacity:0.9\" />\n      <stop offset=\"100%\" style=\"stop-color:"

def svgS3 : String :=
  ";stop-opacity:0.9\" />\n    </linearGradient>\n    <filter id=\"glow\"><feGaussianBlur stdDeviation=\"4\" result=\"coloredBlur\"/>\n      <feMerge><feMergeNode in=\"coloredBlur\"/><feMergeNode in=\"SourceGraphic\"/></feMerge>\n    </filter>\n  </defs>\n  <rect width=\"600\" height=\"600\" fill=\""

def svgS4 : String := "\" rx=\"24\"/>\n"

def svgCircleHead : String :=
  "  <circle cx=\"300\" cy=\"300\" r=\"200\" fill=\"url(#fill)\" stroke=\""

def svgCircleTail : String :=
  "\" stroke-width=\"3\" filter=\"url(#glow)\" opacity=\"0.3\"/>\n  <circle cx=\"300\" cy=\"300\" r=\"145\" fill=\"none\" stroke=\""

def svgS5 : String :=
  "\" stroke-width=\"1.5\" opacity=\"0.4\"/>\n  <text x=\"300\" y=\"320\" text-anchor=\"middle\" dominant-baseline=\"middle\"\n    font-family=\"Inter, sans-serif\" font-weight=\"800\"\n    font-size=\""

def svgS6 : String := "px\"\n    letter-spacing=\""

def svgS7 : String := "\"\n    fill=\""

def svgS8 : String := "\" filter=\"url(#glow)\">"

def svgS9 : String :=
  "</text>\n  <text x=\"300\" y=\"380\" text-anchor=\"middle\"\n    font-family=\"Inter, sans-serif\" font-size=\"20px\"\n    fill=\""

def svgS10 : String := "\" opacity=\"0.7\">"

def svgS11 : String := "</text>\n</svg>"

/-- Everything of the exporter's template literal before the interpolated
uppercased name. -/
def svgHead (n : String) (p : ResolvedPalette) (ls : ℚ) : String :=
  svgS1 ++ p.primary ++ svgS2 ++ p.secondary ++ svgS3 ++ p.bg ++ svgS4
    ++ svgCircleHead ++ p.primary ++ svgCircleTail ++ p.accent ++ svgS5
    ++ qStr (svgFontSize n) ++ svgS6 ++ qStr (lsOr2 ls) ++ svgS7
    ++ p.primary ++ svgS8

/-- Everything of the template literal after the uppercased name. -/
def svgRest (p : ResolvedPalette) : String :=
  svgS9 ++ p.secondary ++ svgS10 ++ "BRAND" ++ svgS11

/-- The `svgContent` template literal of `downloadLogoAsSVG`
(`src/unnamed/part_000`), assembled from its constant pieces and the
interpolated expressions in source order. -/
def svgContent (n : String) (p : ResolvedPalette) (ls : ℚ) : String :=
  svgHead n p ls ++ jsToUpper n ++ svgRest p

/-- `downloadLogoAsSVG` destructures only `name`, `palette` and
`letterSpacing` from the configuration. -/
def downloadLogoAsSVG (cfg : LogoConfig) : String :=
  svgContent cfg.name cfg.palette cfg.letterSpacing

/-- Does the pattern match at the head of the list? -/
def leadMatch : List Char → List Char → Bool
  | [], _ => true
  | _ :: _, [] => false
  | a :: as, b :: bs => a = b && leadMatch as bs

/-- Number of positions at which `pat` occurs in `s` (overlaps counted). -/
def occCount (pat : List Char) : List Char → ℕ
  | [] => if leadMatch pat [] then 1 else 0
  | c :: cs => (if leadMatch pat (c :: cs) then 1 else 0) + occCount pat cs

/-- The transcendental functions used by `LogoCanvas.jsx`, abstracted as a
parameter (they are pure, so this preserves all determinism reasoning). -/
structure JsMath where
  pi : ℚ
  sin : ℚ → ℚ
  cos : ℚ → ℚ

/-- A canvas gradient object: kind, the `create*Gradient` arguments, and the
`addColorStop` calls made on it. -/
structure Grad where
  kind : String
  args : List ℚ
  stops : List (ℚ × String)
  deriving DecidableEq

/-- One canvas API call issued by the renderer.  Property assignments
(`ctx.fillStyle = …`) are recorded as `set*` operations; the `font` shorthand
string is recorded structurally as (weight, size, family). -/
inductive CanvasOp where
  | clearRect (x y w h : ℚ)
  | setFillColor (c : String)
  | setFillGrad (g : Grad)
  | roundRect (x y w h r : ℚ)
  | fillPath
  | beginPath
  | arc (x y r a0 a1 : ℚ)
  | moveTo (x y : ℚ)
  | lineTo (x y : ℚ)
  | bezierTo (c1x c1y c2x c2y x y : ℚ)
  | closePath
  | strokePath
  | setStrokeColor (c : String)
  | setLineWidth (w : ℚ)
  | setGlobalAlpha (a : ℚ)
  | setShadowBlur (b : ℚ)
  | setShadowColor (c : String)
  | setShadowOffsetX (v : ℚ)
  | setShadowOffsetY (v : ℚ)
  | save
  | restore
  | setFont (weight : ℕ) (sizePx : ℚ) (family : String)
  | setTextAlign (s : String)
  | setTextBaseline (s : String)
  | setLetterSpacing (px : ℚ)
  | fillTextAt (s : String) (x y : ℚ)
  | strokeTextAt (s : String) (x y : ℚ)
  | translate (x y : ℚ)
  | rotateBy (a : ℚ)
  deriving DecidableEq

/-- Value of one hex digit (0 for non-hex input, like `parseInt`'s NaN path
never taken on the repo's color strings). -/
def hexVal (c : Char) : ℕ :=
  if '0' ≤ c ∧ c ≤ '9' then c.toNat - '0'.toNat
  else if 'a' ≤ c ∧ c ≤ 'f' then c.toNat - 'a'.toNat + 10
  else if 'A' ≤ c ∧ c ≤ 'F' then c.toNat - 'A'.toNat + 10
  else 0

/-- `parseInt(hex.slice(i, i+2), 16)`. -/
def hexPair (s : List Char) (i : ℕ) : ℕ :=
  16 * hexVal (s.getD i '0') + hexVal (s.getD (i + 1) '0')

def hexDigitChar (n : ℕ) : Char :=
  if n < 10 then Char.ofNat ('0'.toNat + n) else Char.ofNat ('a'.toNat + n - 10)

/-- `n.toString(16).padStart(2, '0')` for a byte value. -/
def byteHex (n : ℕ) : String := ⟨[hexDigitChar (n / 16 % 16), hexDigitChar (n % 16)]⟩

/-- `Math.round` (JS rounds half toward +∞). -/
def jsRound (x : ℚ) : ℤ := (x + 1/2).floor

/-- The `hue2rgb` helper inside `shiftHue`. -/
def hue2rgb (p q t0 : ℚ) : ℚ :=
  let t1 := if t0 < 0 then t0 + 1 else t0
  let t := if t1 > 1 then t1 - 1 else t1
  if t < 1/6 then p + (q - p) * 6 * t
  else if t < 1/2 then q
  else if t < 2/3 then p + (q - p) * (2/3 - t) * 6
  else p

/-- `shiftHue(hex, shift)` from `LogoCanvas.jsx`: RGB → HSL, rotate the hue,
HSL → RGB, re-encode as `#rrggbb`. -/
def shiftHue (hex : String) (shift : ℚ) : String :=
  let d := hex.data
  let r := (hexPair d 1 : ℚ) / 255
  let g := (hexPair d 3 : ℚ) / 255
  let b := (hexPair d 5 : ℚ) / 255
  let mx := max r (max g b)
  let mn := min r (min g b)
  let l := (mx + mn) / 2
  let hs : ℚ × ℚ :=
    if mx = mn then (0, 0)
    else
      let dd := mx - mn
      let s := if l > 1/2 then dd / (2 - mx - mn) else dd / (mx + mn)
      let h :=
        if mx = r then (g - b) / dd + (if g < b then 6 else 0)
        else if mx = g then (b - r) / dd + 2
        else (r - g) / dd + 4
      (h / 6, s)
  let h0 := hs.1 + shift / 360
  let h := h0 - (h0.floor : ℚ)
  let s := hs.2
  let q := if l < 1/2 then l * (1 + s) else l + s - l * s
  let p := 2 * l - q
  let ro := (jsRound (hue2rgb p q (h + 1/3) * 255)).toNat
  let go := (jsRound (hue2rgb p q h * 255)).toNat
  let bo := (jsRound (hue2rgb p q (h - 1/3) * 255)).toNat
  "#" ++ byteHex ro ++ byteHex go ++ byteHex bo

/-- `polygonPath(ctx, cx, cy, r, sides, rotation)`. -/
def polygonPath (M : JsMath) (cx cy r : ℚ) (sides : ℕ) (rot : ℚ) : List CanvasOp :=
  CanvasOp.beginPath ::
    ((List.range sides).map fun i =>
      let angle := (M.pi * 2 * (i : ℚ)) / (sides : ℚ) - M.pi / 2 + rot
      let px := cx + r * M.cos angle
      let py := cy + r * M.sin angle
      if i = 0 then CanvasOp.moveTo px py else CanvasOp.lineTo px py)
    ++ [CanvasOp.closePath]

/-- `starPath(ctx, cx, cy, outerR, innerR, points, rotation)`. -/
def starPath (M : JsMath) (cx cy outerR innerR : ℚ) (points : ℕ) (rot : ℚ) :
    List CanvasOp :=
  CanvasOp.beginPath ::
    ((List.range (points * 2)).map fun i =>
      let angle := (M.pi * (i : ℚ)) / (points : ℚ) - M.pi / 2 + rot
      let rr := if i % 2 = 0 then outerR else innerR
      let px := cx + rr * M.cos angle
      let py := cy + rr * M.sin angle
      if i = 0 then CanvasOp.moveTo px py else CanvasOp.lineTo px py)
    ++ [CanvasOp.closePath]

/-- `buildShape(ctx, shape, cx, cy, r)`: the switch over the 8 shape tags
(default: hexagon with no rotation). -/
def buildShape (M : JsMath) (shape : String) (cx cy r : ℚ) : List CanvasOp :=
  if shape = "circle" then
    [CanvasOp.beginPath, CanvasOp.arc cx cy r 0 (M.pi * 2)]
  else if shape = "hexagon" then polygonPath M cx cy r 6 (M.pi / 6)
  else if shape = "diamond" then polygonPath M cx cy r 4 0
  else if shape = "shield" then
    [CanvasOp.beginPath, CanvasOp.moveTo cx (cy - r),
     CanvasOp.lineTo (cx + r) (cy - r * (2/5)),
     CanvasOp.lineTo (cx + r) (cy + r * (1/5)),
     CanvasOp.bezierTo (cx + r) (cy + r * (4/5)) cx (cy + r) cx (cy + r),
     CanvasOp.bezierTo cx (cy + r) (cx - r) (cy + r * (4/5)) (cx - r) (cy + r * (1/5)),
     CanvasOp.lineTo (cx - r) (cy - r * (2/5)), CanvasOp.closePath]
  else if shape = "star" then starPath M cx cy r (r * (9/20)) 5 0
  else if shape = "badge" then polygonPath M cx cy r 8 (M.pi / 8)
  else if shape = "infinity" then
    let w := r * (3/5)
    [CanvasOp.beginPath, CanvasOp.moveTo cx cy,
     CanvasOp.bezierTo (cx - w) (cy - r) (cx - r * (8/5)) (cy - r) (cx - r * (8/5)) cy,
     CanvasOp.bezierTo (cx - r * (8/5)) (cy + r) (cx - w) (cy + r) cx cy,
     CanvasOp.bezierTo (cx + w) (cy - r) (cx + r * (8/5)) (cy - r) (cx + r * (8/5)) cy,
     CanvasOp.bezierTo (cx + r * (8/5)) (cy + r) (cx + w) (cy + r) cx cy,
     CanvasOp.closePath]
  else if shape = "arch" then
    [CanvasOp.beginPath, CanvasOp.arc cx cy r M.pi 0,
     CanvasOp.lineTo (cx + r) (cy + r * (3/5)),
     CanvasOp.bezierTo (cx + r * (1/2)) (cy + r * (11/10)) (cx - r * (1/2)) (cy + r * (11/10)) (cx - r) (cy + r * (3/5)),
     CanvasOp.closePath]
  else polygonPath M cx cy r 6 0

/-- The successive loop-variable values of `for (v = 0; v < bound; v += step)`
(for positive `step`, the loop body runs for `v = 0, step, 2*step, …` while
`v < bound`, i.e. `⌈bound/step⌉` times when `bound > 0`). -/
def stepVals (bound step : ℚ) : List ℚ :=
  (List.range (bound / step).ceil.toNat).map fun i => (i : ℚ) * step

/-- Iteration count of `for (v = 0; v < size/20 + 1; v++)` (hexagons rows/cols). -/
def hexCount (size : ℚ) : ℕ := (size / 20 + 1).ceil.toNat

/-- `drawPattern(ctx, size, pattern, color)` from `LogoCanvas.jsx`.  Only the
`'circuits'` case consumes `Math.random()` draws (two per iteration, ten
iterations), taken from `σ`. -/
def drawPattern (M : JsMath) (size : ℚ) (pat : String) (color : String)
    (σ : ℕ → ℚ) : List CanvasOp :=
  let pre := [CanvasOp.setGlobalAlpha (3/50), CanvasOp.setStrokeColor color,
    CanvasOp.setLineWidth (1/2)]
  let body :=
    if pat = "dots" then
      ((stepVals size 20).map fun x =>
        ((stepVals size 20).map fun y =>
          [CanvasOp.beginPath, CanvasOp.arc x y (3/2) 0 (M.pi * 2),
           CanvasOp.setFillColor color, CanvasOp.fillPath]).flatten).flatten
    else if pat = "lines" then
      ((stepVals (size * 2) 20).map fun i =>
        [CanvasOp.beginPath, CanvasOp.moveTo i 0, CanvasOp.lineTo 0 i,
         CanvasOp.strokePath]).flatten
    else if pat = "grid" then
      ((stepVals size 20).map fun x =>
        [CanvasOp.beginPath, CanvasOp.moveTo x 0, CanvasOp.lineTo x size,
         CanvasOp.strokePath]).flatten
      ++ ((stepVals size 20).map fun y =>
        [CanvasOp.beginPath, CanvasOp.moveTo 0 y, CanvasOp.lineTo size y,
         CanvasOp.strokePath]).flatten
    else if pat = "triangles" then
      ((stepVals size 20).map fun x =>
        ((stepVals size 20).map fun y =>
          [CanvasOp.beginPath, CanvasOp.moveTo x (y + 20),
           CanvasOp.lineTo (x + 10) y, CanvasOp.lineTo (x + 20) (y + 20),
           CanvasOp.closePath, CanvasOp.strokePath]).flatten).flatten
    else if pat = "hexagons" then
      ((List.range (hexCount size)).map fun row =>
        ((List.range (hexCount size)).map fun col =>
          polygonPath M ((col : ℚ) * 34 + ((row % 2 : ℕ) : ℚ) * 17) ((row : ℚ) * 30)
            10 6 (M.pi / 6) ++ [CanvasOp.strokePath]).flatten).flatten
    else if pat = "waves" then
      ((stepVals size 20).map fun y =>
        [CanvasOp.beginPath, CanvasOp.moveTo 0 y]
        ++ ((stepVals size 4).map fun x =>
          [CanvasOp.lineTo x (y + M.sin (x * (2/25)) * 5)]).flatten
        ++ [CanvasOp.strokePath]).flatten
    else if pat = "circuits" then
      ((List.range 10).map fun i =>
        let x := σ (2 * i) * size
        let y := σ (2 * i + 1) * size
        [CanvasOp.beginPath, CanvasOp.arc x y 3 0 (M.pi * 2), CanvasOp.strokePath,
         CanvasOp.beginPath, CanvasOp.moveTo x y, CanvasOp.lineTo (x + 40) y,
         CanvasOp.lineTo (x + 40) (y + 40), CanvasOp.strokePath]).flatten
    else []
  pre ++ body ++ [CanvasOp.setGlobalAlpha 1]

/-- `drawDecors(ctx, config, cx, cy, r)`: the ring of small dots and the two
decorative bezier arcs. -/
def drawDecors (cfg : LogoConfig) (M : JsMath) (cx cy r : ℚ) : List CanvasOp :=
  let dots := ((List.range cfg.decorCount).map fun (i : ℕ) =>
    let angle := (M.pi * 2 * (i : ℚ)) / (cfg.decorCount : ℚ)
    let dx := cx + (r * (17/20)) * M.cos angle
    let dy := cy + (r * (17/20)) * M.sin angle
    let dotR : ℚ := 2 + ((i % 3 : ℕ) : ℚ)
    [CanvasOp.beginPath, CanvasOp.arc dx dy dotR 0 (M.pi * 2),
     CanvasOp.setFillColor (if i % 2 = 0 then cfg.palette.accent else cfg.palette.secondary),
     CanvasOp.setShadowBlur (if cfg.effect = "glow" ∨ cfg.effect = "neon" then 10 else 0),
     CanvasOp.setShadowColor cfg.palette.accent, CanvasOp.fillPath,
     CanvasOp.setShadowBlur 0]).flatten
  let arcs := (cfg.bezierCurves.enum.map fun q =>
    let i := q.1
    let bc := q.2
    let alpha : ℚ := 1/5 - (i : ℚ) * (1/20)
    if alpha ≤ 0 then []
    else
      [CanvasOp.beginPath, CanvasOp.moveTo cx (cy - r * (1/2)),
       CanvasOp.bezierTo (cx + bc.cx1) (cy + bc.cy1) (cx + bc.cx2) (cy + bc.cy2) cx (cy + r * (1/2)),
       CanvasOp.setStrokeColor (if i = 0 then cfg.palette.primary else cfg.palette.secondary),
       CanvasOp.setGlobalAlpha alpha, CanvasOp.setLineWidth 1, CanvasOp.strokePath,
       CanvasOp.setGlobalAlpha 1]).flatten
  dots ++ arcs

/-- `FONT_MAP` from `LogoCanvas.jsx`. -/
def fontMap : List (String × String) := [
  ("serif", "Georgia, \"Times New Roman\", serif"),
  ("sans", "\"Inter\", \"Helvetica Neue\", sans-serif"),
  ("mono", "\"JetBrains Mono\", \"Courier New\", monospace"),
  ("display", "\"Space Grotesk\", \"Arial Black\", sans-serif"),
  ("cursive", "\"Palatino Linotype\", \"Book Antiqua\", Palatino, serif"),
  ("geometric", "\"Futura\", \"Century Gothic\", \"Apple Gothic\", sans-serif"),
  ("rounded", "\"Nunito\", \"Varela Round\", sans-serif"),
  ("sharp", "\"Oswald\", \"Arial Narrow\", sans-serif")]

/-- `FONT_MAP[fontStyle] || FONT_MAP.sans`. -/
def fontFor (fs : String) : String :=
  match fontMap.find? (·.1 == fs) with
  | some kv => kv.2
  | none => "\"Inter\", \"Helvetica Neue\", sans-serif"

/-- `(text.length - 1) || 1` used as the divisor of the circular layout. -/
def jsOrOne (a : ℤ) : ℚ := if a = 0 then 1 else (a : ℚ)

/-- `drawText(ctx, config, cx, cy, r, size)` from `LogoCanvas.jsx`. -/
def drawText (cfg : LogoConfig) (M : JsMath) (cx cy r size : ℚ) : List CanvasOp :=
  let font := fontFor cfg.fontStyle
  let sfs := max 10 (min cfg.fontSize (size * (11/50)))
  let effOps :=
    if cfg.effect = "glow" ∨ cfg.effect = "neon" then
      [CanvasOp.setShadowBlur 20, CanvasOp.setShadowColor cfg.palette.primary]
    else if cfg.effect = "shadow" then
      [CanvasOp.setShadowBlur 8, CanvasOp.setShadowColor "rgba(0,0,0,0.7)",
       CanvasOp.setShadowOffsetX 2, CanvasOp.setShadowOffsetY 2]
    else []
  let fillOps :=
    if cfg.effect = "gradient" ∨ cfg.effect = "metallic" then
      [CanvasOp.setFillGrad ⟨"linear", [cx - r, cy, cx + r, cy],
        [(0, cfg.palette.primary), (1/2, cfg.palette.accent), (1, cfg.palette.secondary)]⟩]
    else [CanvasOp.setFillColor cfg.palette.primary]
  let layoutOps :=
    if cfg.layout = "monogram" then
      [CanvasOp.setFont 800 (sfs * (11/5)) font, CanvasOp.setLetterSpacing cfg.letterSpacing,
       CanvasOp.fillTextAt cfg.initials cx cy]
    else if cfg.layout = "stacked" then
      let parts := (splitOnSpace cfg.name.data).map fun w => (⟨w⟩ : String)
      let lh := sfs * (7/5)
      let top := cy - ((parts.length : ℚ) - 1) * lh / 2
      (parts.enum.map fun q =>
        [CanvasOp.setFont 700 sfs font,
         CanvasOp.fillTextAt (jsToUpper q.2) cx (top + (q.1 : ℚ) * lh)]).flatten
    else if cfg.layout = "circular" then
      let text := (jsToUpper cfg.name).data
      let arcR := r * (7/10)
      let arcLen := M.pi
      let step := arcLen / jsOrOne ((text.length : ℤ) - 1)
      let start := -M.pi / 2 - arcLen / 2
      CanvasOp.setFont 700 (max 8 (sfs * (3/4))) font ::
        ((List.range text.length).map fun (i : ℕ) =>
          let angle := start + (i : ℚ) * step
          [CanvasOp.save,
           CanvasOp.translate (cx + arcR * M.cos angle) (cy + arcR * M.sin angle),
           CanvasOp.rotateBy (angle + M.pi / 2),
           CanvasOp.fillTextAt ⟨[text.getD i ' ']⟩ 0 0, CanvasOp.restore]).flatten
    else if cfg.layout = "diagonal" then
      [CanvasOp.save, CanvasOp.translate cx cy, CanvasOp.rotateBy (-(1/4)),
       CanvasOp.setFont 700 sfs font, CanvasOp.fillTextAt (jsToUpper cfg.name) 0 0,
       CanvasOp.restore]
    else if cfg.layout = "split" then
      let mid := (cfg.name.length + 1) / 2
      [CanvasOp.setFont 800 sfs font, CanvasOp.setFillColor cfg.palette.primary,
       CanvasOp.fillTextAt (jsToUpper ⟨cfg.name.data.take mid⟩) cx (cy - sfs * (2/5)),
       CanvasOp.setFillColor cfg.palette.secondary,
       CanvasOp.fillTextAt (jsToUpper ⟨cfg.name.data.drop mid⟩) cx (cy + sfs * (11/10))]
    else
      [CanvasOp.setFont 800 sfs font, CanvasOp.setLetterSpacing cfg.letterSpacing,
       CanvasOp.fillTextAt (jsToUpper cfg.name) cx cy,
       CanvasOp.setFont 400 (max 6 (sfs * (9/20))) font,
       CanvasOp.setFillColor cfg.palette.secondary, CanvasOp.setGlobalAlpha (7/10),
       CanvasOp.fillTextAt "BRAND" cx (cy + sfs * (11/10)), CanvasOp.setGlobalAlpha 1]
  let outlineOps :=
    if cfg.effect = "outline" ∨ cfg.effect = "emboss" then
      [CanvasOp.setShadowBlur 0, CanvasOp.setShadowOffsetX 0, CanvasOp.setShadowOffsetY 0,
       CanvasOp.setStrokeColor cfg.palette.secondary, CanvasOp.setLineWidth (3/2),
       CanvasOp.setFont 800 sfs font, CanvasOp.strokeTextAt (jsToUpper cfg.name) cx cy]
    else []
  [CanvasOp.save, CanvasOp.setTextAlign "center", CanvasOp.setTextBaseline "middle"]
    ++ effOps ++ fillOps ++ layoutOps ++ outlineOps ++ [CanvasOp.restore]

/-- `drawLogo(canvas, config, logicalSize)` from `LogoCanvas.jsx`, as the
sequence of canvas calls it issues.  `σ` is the `Math.random()` stream, used
only by `drawPattern`'s `'circuits'` case. -/
def drawLogo (M : JsMath) (cfg : LogoConfig) (size : ℚ) (σ : ℕ → ℚ) : List CanvasOp :=
  let cx := size / 2
  let cy := size / 2
  let r := size * (17/50)
  let bg := [CanvasOp.clearRect 0 0 size size,
    CanvasOp.setFillGrad ⟨"radial", [cx, cy, 0, cx, cy, size * (3/4)],
      [(0, shiftHue cfg.palette.bg 20), (1, cfg.palette.bg)]⟩,
    CanvasOp.roundRect 0 0 size size cfg.borderRadius, CanvasOp.fillPath]
  let patternOps := drawPattern M size cfg.pattern cfg.palette.primary σ
  let glowOps :=
    if cfg.effect = "glow" ∨ cfg.effect = "neon" ∨ cfg.effect = "glass" then
      [CanvasOp.save, CanvasOp.setShadowBlur cfg.glowIntensity,
       CanvasOp.setShadowColor cfg.palette.primary]
      ++ buildShape M cfg.shape cx cy (r * (21/20))
      ++ [CanvasOp.setStrokeColor (cfg.palette.primary ++ "44"),
          CanvasOp.setLineWidth (cfg.strokeWidth * 2), CanvasOp.strokePath,
          CanvasOp.restore]
    else []
  let mainFill :=
    if cfg.effect = "gradient" ∨ cfg.effect = "glass" ∨ cfg.effect = "metallic" then
      [CanvasOp.setFillGrad ⟨"linear", [cx - r, cy - r, cx + r, cy + r],
        [(0, cfg.palette.primary ++ "CC"), (1/2, cfg.palette.secondary ++ "99"),
         (1, cfg.palette.accent ++ "CC")]⟩]
    else [CanvasOp.setFillColor (cfg.palette.primary ++ "22")]
  let neonOps :=
    if cfg.effect = "neon" then
      [CanvasOp.setShadowBlur cfg.glowIntensity, CanvasOp.setShadowColor cfg.palette.primary]
    else []
  let mainShape :=
    buildShape M cfg.shape cx cy r ++ [CanvasOp.save] ++ mainFill
    ++ [CanvasOp.setShadowBlur (if cfg.effect = "shadow" then 20 else 0),
        CanvasOp.setShadowColor "rgba(0,0,0,0.5)", CanvasOp.fillPath,
        CanvasOp.setStrokeColor cfg.palette.primary, CanvasOp.setLineWidth cfg.strokeWidth]
    ++ neonOps ++ [CanvasOp.strokePath, CanvasOp.restore]
  let innerShape :=
    buildShape M cfg.shape cx cy (r * (18/25))
    ++ [CanvasOp.save, CanvasOp.setStrokeColor cfg.palette.accent,
        CanvasOp.setLineWidth (cfg.strokeWidth * (1/2)), CanvasOp.setGlobalAlpha (9/20),
        CanvasOp.strokePath, CanvasOp.restore]
  bg ++ patternOps ++ glowOps ++ mainShape ++ innerShape
    ++ drawDecors cfg M cx cy r ++ drawText cfg M cx cy r size

/-- Splitting on arbitrary whitespace characters (used only by
`specInitials` below, which follows the specification's wording). -/
def splitOnWS : List Char → List (List Char)
  | [] => [[]]
  | c :: rest =>
    if c.isWhitespace then [] :: splitOnWS rest
    else
      match splitOnWS rest with
      | [] => [[c]]
      | w :: ws => (c :: w) :: ws

/-- The initials rule as worded by the specification (claim C3): split the
*trimmed* name on *whitespace*, uppercase the first character of each word,
concatenate, truncate to 3; fall back to the first character of the raw name
uppercased, then to `"L"`.  Defined only to compare the specification's
wording against the source's `initialsOf` (which splits the untrimmed name on
the single space character). -/
def specInitials (name : String) : String :=
  let joined := ((splitOnWS (jsTrim name).data).map firstUpper).flatten
  let sliced := joined.take 3
  if sliced ≠ [] then ⟨sliced⟩
  else
    match name.data with
    | [] => "L"
    | c :: _ => ⟨[c.toUpper]⟩

/-- The all-zeros random stream (0 is a legal `Math.random()` value). -/
def zeroStream : ℕ → ℚ := fun _ => 0

/-- Per-logo all-zeros random streams for the handler. -/
def zeroStream2 : ℕ → ℕ → ℚ := fun _ _ => 0

/-- Trivial uuid supply for concrete handler evaluations. -/
def noUuids : ℕ → String := fun _ => ""

/-- A degenerate (but perfectly legal) trig model for concrete renderer
evaluations: determinism and nondeterminism of the trace do not depend on the
actual values of `Math.sin`/`Math.cos`/`Math.PI`. -/
def mathZero : JsMath := ⟨0, fun _ => 0, fun _ => 0⟩

/-- A concrete configuration whose background pattern is `"circuits"`. -/
def circCfg : LogoConfig :=
  { id := "x", name := "A", initials := "A",
    palette := ⟨"#FF0000", "#00FF00", "#0000FF", "#000000", "vibrant"⟩,
    shape := "circle", fontStyle := "sans", effect := "shadow",
    layout := "centered", pattern := "circuits",
    rotation := 0, scale := 1, shapeSize := 150, fontSize := 30,
    letterSpacing := 2, borderRadius := 10, strokeWidth := 2,
    glowIntensity := 10, innerRotation := 0, decorCount := 3,
    bezierCurves := [⟨0, 0, 0, 0⟩, ⟨0, 0, 0, 0⟩], hslShift := 0, timestamp := 0 }

/-- The same configuration with the deterministic `"dots"` pattern. -/
def dotsCfg : LogoConfig := { circCfg with pattern := "dots" }

/-- A configuration whose brand name uppercases to the tagline `"BRAND"`. -/
def brandCfg : LogoConfig := { circCfg with name := "Brand" }

/-- Same as `brandCfg` except for the `shape` field. -/
def brandCfgStar : LogoConfig := { brandCfg with shape := "star" }

def acmeReq : Req := ⟨"POST", some "Acme", some 5, defaultOptions⟩

def blankReq : Req := ⟨"POST", some "   ", some 5, defaultOptions⟩

def optionsReq : Req := ⟨"OPTIONS", some "Acme", none, defaultOptions⟩

def getReq : Req := ⟨"GET", some "Acme", none, defaultOptions⟩

theorem getD_mem {α : Type} (l : List α) (i : ℕ) (d : α) (h : i < l.length) :
    l.getD i d ∈ l := by
  induction l generalizing i with
  | nil => simp at h
  | cons a t ih =>
    cases i with
    | zero => simp
    | succ n =>
      simp only [List.getD_cons_succ]
      exact List.mem_cons_of_mem _ (ih n (by simpa using h))

theorem ratFloor_eq (q : ℚ) : q.floor = ⌊q⌋ := by
  rw [Rat.floor_def', Rat.floor_def]

theorem randIdx_eq_iff {r : ℚ} {n j : ℕ} (h0 : 0 ≤ r) :
    randIdx n r = j ↔ (j : ℚ) ≤ r * n ∧ r * n < j + 1 := by
  unfold randIdx
  rw [ratFloor_eq]
  have hnn : (0 : ℚ) ≤ r * n := mul_nonneg h0 (Nat.cast_nonneg n)
  have hf : 0 ≤ ⌊r * (n : ℚ)⌋ := Int.floor_nonneg.mpr hnn
  constructor
  · intro h
    have hj : ⌊r * (n : ℚ)⌋ = (j : ℤ) := by omega
    have := Int.floor_eq_iff.mp hj
    constructor
    · exact_mod_cast this.1
    · exact_mod_cast this.2
  · intro ⟨h1, h2⟩
    have : ⌊r * (n : ℚ)⌋ = (j : ℤ) := by
      apply Int.floor_eq_iff.mpr
      constructor
      · exact_mod_cast h1
      · exact_mod_cast h2
    omega

theorem randIdx_lt {r : ℚ} {n : ℕ} (_h0 : 0 ≤ r) (h1 : r < 1) (hn : 0 < n) :
    randIdx n r < n := by
  unfold randIdx
  rw [ratFloor_eq]
  have hc : (0 : ℚ) < (n : ℚ) := by exact_mod_cast hn
  have hrn : r * (n : ℚ) < (n : ℚ) := by nlinarith
  have hf : ⌊r * (n : ℚ)⌋ < (n : ℤ) := Int.floor_lt.mpr (by exact_mod_cast hrn)
  omega

theorem jsIdx_mem {arr : List String} {r : ℚ} (h0 : 0 ≤ r) (h1 : r < 1)
    (hne : arr ≠ []) : jsIdx arr r ∈ arr :=
  getD_mem arr _ "" (randIdx_lt h0 h1 (List.length_pos.mpr hne))

theorem pick_mem {arr : List String} {val : String} {r : ℚ} (h0 : 0 ≤ r)
    (h1 : r < 1) (hne : arr ≠ []) : pick arr val r ∈ arr := by
  unfold pick
  split_ifs with h
  · exact jsIdx_mem h0 h1 hne
  · push_neg at h
    exact h.2

theorem resolveKey_mem {pt : String} {r1 : ℚ} (h0 : 0 ≤ r1) (h1 : r1 < 1) :
    resolveKey pt r1 ∈ paletteKeys := by
  unfold resolveKey
  split_ifs with ha hb
  · exact jsIdx_mem h0 h1 (by decide)
  · exact hb
  · decide

theorem palettesFor_length {k : String} (hk : k ∈ paletteKeys) :
    (palettesFor k).length = 4 := by
  fin_cases hk <;> decide

theorem paletteProj_withName (p : Palette) (k : String) :
    paletteProj (withName p k) = p := rfl

theorem pickPalette_paletteName (pt : String) (r1 r2 : ℚ) :
    (pickPalette pt r1 r2).paletteName = resolveKey pt r1 := rfl

theorem pickPalette_proj {pt : String} {r1 r2 : ℚ} :
    paletteProj (pickPalette pt r1 r2)
      = (palettesFor (resolveKey pt r1)).getD
          (randIdx (palettesFor (resolveKey pt r1)).length r2) defaultPalette := rfl

theorem pickPalette_proj_mem {pt : String} {r1 r2 : ℚ} (h0 : 0 ≤ r1) (h1 : r1 < 1)
    (k0 : 0 ≤ r2) (k1 : r2 < 1) :
    paletteProj (pickPalette pt r1 r2) ∈ palettesFor (resolveKey pt r1) := by
  rw [pickPalette_proj]
  apply getD_mem
  apply randIdx_lt k0 k1
  rw [palettesFor_length (resolveKey_mem h0 h1)]
  norm_num

theorem initialsOf_ne_empty (name : String) : initialsOf name ≠ "" := by
  unfold initialsOf
  dsimp only
  split_ifs with h
  · intro hc
    exact h (congrArg String.data hc)
  · match hd : name.data with
    | [] => decide
    | c :: rest =>
      intro hc
      have := congrArg String.data hc
      simp at this

theorem initialsOf_length_le (name : String) : (initialsOf name).length ≤ 3 := by
  unfold initialsOf
  dsimp only
  split_ifs with h
  · show (((splitOnSpace name.data).map firstUpper).flatten.take 3).length ≤ 3
    rw [List.length_take]
    omega
  · match hd : name.data with
    | [] => decide
    | c :: rest => simp [String.length]

theorem drawPattern_det (M : JsMath) (size : ℚ) (pat color : String)
    (σ1 σ2 : ℕ → ℚ) (h : pat ≠ "circuits") :
    drawPattern M size pat color σ1 = drawPattern M size pat color σ2 := by
  unfold drawPattern
  dsimp only
  split_ifs <;> rfl

theorem pickSt_fst_mem {arr : List String} {val : String} {σ : ℕ → ℚ} {i : ℕ}
    (hσ : ∀ n, 0 ≤ σ n ∧ σ n < 1) (hne : arr ≠ []) : (pickSt arr val σ i).1 ∈ arr := by
  unfold pickSt
  split_ifs with h
  · exact pick_mem (hσ i).1 (hσ i).2 hne
  · push_neg at h
    exact h.2

theorem pickPaletteSt_fst_name_mem {pt : String} {σ : ℕ → ℚ} {i : ℕ}
    (hσ : ∀ n, 0 ≤ σ n ∧ σ n < 1) :
    (pickPaletteSt pt σ i).1.paletteName ∈ paletteKeys := by
  unfold pickPaletteSt
  split_ifs with h
  · exact resolveKey_mem (hσ i).1 (hσ i).2
  · exact resolveKey_mem (le_refl 0) zero_lt_one

theorem pickPaletteSt_fst_proj_mem {pt : String} {σ : ℕ → ℚ} {i : ℕ}
    (hσ : ∀ n, 0 ≤ σ n ∧ σ n < 1) :
    paletteProj (pickPaletteSt pt σ i).1
      ∈ palettesFor (pickPaletteSt pt σ i).1.paletteName := by
  unfold pickPaletteSt
  split_ifs with h
  · exact pickPalette_proj_mem (hσ i).1 (hσ i).2 (hσ (i+1)).1 (hσ (i+1)).2
  · exact pickPalette_proj_mem (le_refl 0) zero_lt_one (hσ i).1 (hσ i).2

theorem jsSlice_of_le (s : String) (k : ℕ) (h : s.length ≤ k) : jsSlice s k = s := by
  unfold jsSlice
  cases s with
  | mk data =>
    have hd : data.length ≤ k := h
    rw [List.take_of_length_le hd]

theorem mem_ne_random {arr : List String} {v : String} (hm : v ∈ arr)
    (hr : "random" ∉ arr) : v ≠ "random" := by
  intro h
  rw [h] at hm
  exact hr hm

/-- Claim C1 (amended): for the five style fields, `pick` uses the value
verbatim when it is a concrete member of the closed set, and otherwise (for
the sentinel `"random"` or any invalid value) selects the entry at index
`⌊r·n⌋`, which lies in the set and is uniform in the draw `r` (each index `j`
is selected exactly for `r·n ∈ [j, j+1)`, an interval of constant width).
Palette resolution is two-stage, but the category stage follows the same rule
only for `"random"` and for valid categories: an *invalid* category falls back
deterministically to the first key (`"vibrant"`), not to a uniformly random
one; the variant stage is uniform among the category's 4 variants. -/
theorem pick_resolution_rule
    (arr : List String) (val pt : String) (r r1 r2 : ℚ)
    (h0 : 0 ≤ r) (h1 : r < 1) (hne : arr ≠ [])
    (g0 : 0 ≤ r1) (g1 : r1 < 1) (k0 : 0 ≤ r2) (k1 : r2 < 1) :
    (val ≠ "random" → val ∈ arr → pick arr val r = val)
    ∧ ((val = "random" ∨ val ∉ arr) →
        pick arr val r = arr.getD (randIdx arr.length r) ""
        ∧ pick arr val r ∈ arr)
    ∧ (∀ j : ℕ, randIdx arr.length r = j ↔
        (j : ℚ) ≤ r * arr.length ∧ r * arr.length < j + 1)
    ∧ (pt = "random" → resolveKey pt r1 = paletteKeys.getD (randIdx 8 r1) "")
    ∧ (∀ j : ℕ, randIdx 8 r1 = j ↔ (j : ℚ) ≤ r1 * 8 ∧ r1 * 8 < j + 1)
    ∧ (pt ≠ "random" → pt ∈ paletteKeys → resolveKey pt r1 = pt)
    ∧ (pt ≠ "random" → pt ∉ paletteKeys → resolveKey pt r1 = "vibrant")
    ∧ resolveKey pt r1 ∈ paletteKeys
    ∧ paletteProj (pickPalette pt r1 r2)
        = (palettesFor (resolveKey pt r1)).getD (randIdx 4 r2) defaultPalette
    ∧ paletteProj (pickPalette pt r1 r2) ∈ palettesFor (resolveKey pt r1)
    ∧ (∀ j : ℕ, randIdx 4 r2 = j ↔ (j : ℚ) ≤ r2 * 4 ∧ r2 * 4 < j + 1) := by
  have hkey : resolveKey pt r1 ∈ paletteKeys := resolveKey_mem g0 g1
  have hlen : (palettesFor (resolveKey pt r1)).length = 4 := palettesFor_length hkey
  refine ⟨?_, ?_, ?_, ?_, ?_, ?_, ?_, hkey, ?_, ?_, ?_⟩
  · intro hv hm
    unfold pick
    rw [if_neg (not_or.mpr ⟨hv, not_not_intro hm⟩)]
  · intro h
    refine ⟨?_, pick_mem h0 h1 hne⟩
    unfold pick jsIdx
    rw [if_pos h]
  · intro j
    exact randIdx_eq_iff h0
  · intro hpt
    unfold resolveKey jsIdx
    rw [if_pos hpt]
    rfl
  · intro j
    exact randIdx_eq_iff g0
  · intro hv hm
    unfold resolveKey
    rw [if_neg hv, if_pos hm]
  · intro hv hm
    unfold resolveKey
    rw [if_neg hv, if_neg hm]
    decide
  · rw [pickPalette_proj, hlen]
  · exact pickPalette_proj_mem g0 g1 k0 k1
  · intro j
    exact randIdx_eq_iff k0

theorem pick_resolution_rule_witness :
    ((0 : ℚ) ≤ 0 ∧ (0 : ℚ) < 1 ∧ SHAPE_STYLES ≠ ([] : List String)
      ∧ "circle" ≠ "random" ∧ "circle" ∈ SHAPE_STYLES)
    ∧ pick SHAPE_STYLES "circle" 0 = "circle" :=
  ⟨⟨le_refl 0, zero_lt_one, by decide, by decide, by decide⟩,
   (pick_resolution_rule SHAPE_STYLES "circle" "neon" 0 0 0 (le_refl 0)
      zero_lt_one (by decide) (le_refl 0) zero_lt_one (le_refl 0) zero_lt_one).1
      (by decide) (by decide)⟩

/-- Claim C1 counterexample: the draw `r1 = 3/16` selects index 1 (the key
`"neon"`) under the uniform random rule, but the invalid category `"zzz"`
(neither `"random"` nor a valid key) resolves to `"vibrant"` regardless —
the category stage does not follow "the same rule" for invalid values. -/
theorem invalid_palette_type_not_uniform :
    (pickPalette "zzz" (3/16) 0).paletteName = "vibrant"
    ∧ (pickPalette "random" (3/16) 0).paletteName = "neon"
    ∧ ("vibrant" : String) ≠ "neon" := by
  have h : randIdx 8 (3/16) = 1 := by
    rw [randIdx_eq_iff (by norm_num)]
    norm_num
  refine ⟨by decide, ?_, by decide⟩
  rw [pickPalette_paletteName]
  unfold resolveKey jsIdx
  rw [if_pos rfl, show paletteKeys.length = 8 from rfl, h]
  decide

/-- Claim C2: for every name and filter selection, every enumerable field of
the generated configuration is a concrete member of its closed set (never the
sentinel `"random"`, never an invalid value), the palette category is one of
the 8 keys, the palette's four colors are one of that category's own 4
predefined variants, and the initials are non-empty with at most 3
characters. -/
theorem generate_closed_sets
    (name : String) (opts : Options) (σ : ℕ → ℚ) (uuid : String) (now : ℤ)
    (hσ : ∀ n, 0 ≤ σ n ∧ σ n < 1)
    (cfg : LogoConfig) (hcfg : cfg = generateLogoConfig name opts σ uuid now) :
    cfg.shape ∈ SHAPE_STYLES ∧ cfg.fontStyle ∈ FONT_STYLES
    ∧ cfg.effect ∈ EFFECTS ∧ cfg.layout ∈ LAYOUT_MODES ∧ cfg.pattern ∈ PATTERNS
    ∧ cfg.palette.paletteName ∈ paletteKeys
    ∧ paletteProj cfg.palette ∈ palettesFor cfg.palette.paletteName
    ∧ cfg.shape ≠ "random" ∧ cfg.fontStyle ≠ "random" ∧ cfg.effect ≠ "random"
    ∧ cfg.layout ≠ "random" ∧ cfg.pattern ≠ "random"
    ∧ cfg.palette.paletteName ≠ "random"
    ∧ cfg.initials ≠ "" ∧ cfg.initials.length ≤ 3 := by
  subst hcfg
  have hsh : (generateLogoConfig name opts σ uuid now).shape ∈ SHAPE_STYLES :=
    pickSt_fst_mem hσ (by decide)
  have hfo : (generateLogoConfig name opts σ uuid now).fontStyle ∈ FONT_STYLES :=
    pickSt_fst_mem hσ (by decide)
  have hef : (generateLogoConfig name opts σ uuid now).effect ∈ EFFECTS :=
    pickSt_fst_mem hσ (by decide)
  have hla : (generateLogoConfig name opts σ uuid now).layout ∈ LAYOUT_MODES :=
    pickSt_fst_mem hσ (by decide)
  have hpa : (generateLogoConfig name opts σ uuid now).pattern ∈ PATTERNS :=
    pickSt_fst_mem hσ (by decide)
  have hpn : (generateLogoConfig name opts σ uuid now).palette.paletteName ∈ paletteKeys :=
    pickPaletteSt_fst_name_mem hσ
  refine ⟨hsh, hfo, hef, hla, hpa, hpn, pickPaletteSt_fst_proj_mem hσ,
    mem_ne_random hsh (by decide), mem_ne_random hfo (by decide),
    mem_ne_random hef (by decide), mem_ne_random hla (by decide),
    mem_ne_random hpa (by decide), mem_ne_random hpn (by decide),
    initialsOf_ne_empty name, initialsOf_length_le name⟩

theorem generate_closed_sets_witness :
    (∀ n : ℕ, 0 ≤ zeroStream n ∧ zeroStream n < 1)
    ∧ (generateLogoConfig "Acme" defaultOptions zeroStream "id" 0).shape
        ∈ SHAPE_STYLES :=
  ⟨fun _ => ⟨le_refl 0, zero_lt_one⟩,
   (generate_closed_sets "Acme" defaultOptions zeroStream "id" 0
      (fun _ => ⟨le_refl 0, zero_lt_one⟩) _ rfl).1⟩

/-- Claim C3 (amended): `initials` is derived by splitting the *raw* name on
the single space character (not: the trimmed name on general whitespace),
uppercasing each word's first character, concatenating and truncating to 3,
with fallback to the first character of the raw name uppercased and then to
the literal `"L"`; so `initials("Nexus Labs") = "NL"`, `initials("nova") =
"N"`, and the result is always non-empty with at most 3 characters. -/
theorem initials_derivation :
    initialsOf "Nexus Labs" = "NL" ∧ initialsOf "nova" = "N"
    ∧ initialsOf "" = "L" ∧ initialsOf "   " = " "
    ∧ initialsOf "Alpha Beta Gamma Delta" = "ABG"
    ∧ ∀ name : String, initialsOf name ≠ "" ∧ (initialsOf name).length ≤ 3 :=
  ⟨by decide, by decide, by decide, by decide, by decide,
   fun name => ⟨initialsOf_ne_empty name, initialsOf_length_le name⟩⟩

/-- Claim C3 counterexample: for the name `"a\tb"` (tab, not space) the code
splits on the space character only and yields `"A"`, while the
specification's formula (trim, then split on whitespace) yields `"AB"`. -/
theorem initials_whitespace_counterexample :
    initialsOf "a\tb" = "A" ∧ specInitials "a\tb" = "AB"
    ∧ ("A" : String) ≠ "AB" := by
  refine ⟨by decide, by decide, by decide⟩

/-- Claim C10: the generator is total over all string names — it returns a
complete configuration for every name (no validation, no exception), echoing
the name, with non-empty initials of at most 3 characters; the empty name
gets the literal fallback initials `"L"`. -/
theorem generator_total_on_all_names
    (name : String) (opts : Options) (σ : ℕ → ℚ) (uuid : String) (now : ℤ) :
    (generateLogoConfig name opts σ uuid now).name = name
    ∧ (generateLogoConfig name opts σ uuid now).initials = initialsOf name
    ∧ (generateLogoConfig name opts σ uuid now).initials ≠ ""
    ∧ ((generateLogoConfig name opts σ uuid now).initials).length ≤ 3
    ∧ (generateLogoConfig "" opts σ uuid now).initials = "L" :=
  ⟨rfl, rfl, initialsOf_ne_empty name, initialsOf_length_le name, rfl⟩

/-- Claim C4 counterexample: the generator does *not* fail on the empty name;
it returns a configuration whose `initials` silently fall back to `"L"`. -/
theorem generator_accepts_empty_name :
    (generateLogoConfig "" defaultOptions zeroStream "u" 0).initials = "L"
    ∧ (generateLogoConfig "" defaultOptions zeroStream "u" 0).name = "" :=
  ⟨rfl, rfl⟩

/-- Claim C4 (amended): the config generator itself performs no input
validation — it totally accepts any name (the empty name silently receives
the fallback initials `"L"`); empty or whitespace-only names are instead
rejected with a 400 InvalidInput response by the API boundary layer. -/
theorem validation_at_boundary_only
    (name : String) (opts : Options) (σ : ℕ → ℚ) (uuid : String) (now : ℤ)
    (req : Req) (σ2 : ℕ → ℕ → ℚ) (uu : ℕ → String) (n : String)
    (hm : req.method = "POST") (hn : req.name = some n)
    (hblank : jsTrim n = "") :
    (generateLogoConfig name opts σ uuid now).name = name
    ∧ (generateLogoConfig "" opts σ uuid now).initials = "L"
    ∧ (handler req σ2 uu now).status = 400
    ∧ (handler req σ2 uu now).logos = none := by
  have hh : handler req σ2 uu now = ⟨400, some "A logo name is required.", none, none⟩ := by
    unfold handler
    rw [hm, hn]
    simp [hblank]
  exact ⟨rfl, rfl, by rw [hh], by rw [hh]⟩

theorem validation_at_boundary_only_witness :
    (blankReq.method = "POST" ∧ blankReq.name = some "   " ∧ jsTrim "   " = "")
    ∧ (handler blankReq zeroStream2 noUuids 0).status = 400 :=
  ⟨⟨rfl, rfl, by decide⟩,
   (validation_at_boundary_only "x" defaultOptions zeroStream "u" 0
      blankReq zeroStream2 noUuids "   " rfl rfl (by decide)).2.2.1⟩

/-- Claim C5: a valid POST `/api/generate` request yields status 200 and a
batch of `min(max(1, count || 9), 12)` configurations, each carrying the
trimmed (and 50-character-capped) request name; in particular `count = 5`
yields 5, `count = 50` is capped at 12, `count = 0` and a missing count both
default to 9, and for every nonzero count the size is the count clamped to
`[1, 12]`.  When the trimmed name is within the 50-character cap, each
logo's name is exactly the trimmed request name. -/
theorem handler_batch_count
    (req : Req) (σ : ℕ → ℕ → ℚ) (uu : ℕ → String) (now : ℤ) (n : String)
    (hm : req.method = "POST") (hn : req.name = some n)
    (hne : jsTrim n ≠ "") :
    (handler req σ uu now).status = 200
    ∧ (∃ l, (handler req σ uu now).logos = some l
        ∧ l.length = batchSize req.count
        ∧ ∀ cfg ∈ l, cfg.name = jsSlice (jsTrim n) 50)
    ∧ ((jsTrim n).length ≤ 50 → jsSlice (jsTrim n) 50 = jsTrim n)
    ∧ batchSize (some 5) = 5 ∧ batchSize (some 50) = 12
    ∧ batchSize (some 0) = 9 ∧ batchSize none = 9
    ∧ ∀ c : ℤ, c ≠ 0 → batchSize (some c) = (min (max 1 c) 12).toNat := by
  have hh : handler req σ uu now =
      ⟨200, none,
        some ((List.range (batchSize req.count)).map fun k =>
          generateLogoConfig (jsSlice (jsTrim n) 50) req.filters (σ k) (uu k) now),
        some (jsSlice (jsTrim n) 50)⟩ := by
    unfold handler
    rw [hm, hn]
    simp [hne]
  refine ⟨by rw [hh], ⟨_, by rw [hh], by simp, ?_⟩,
    fun h => jsSlice_of_le _ _ h, by decide, by decide, by decide, by decide, ?_⟩
  · intro cfg hc
    simp only [List.mem_map] at hc
    obtain ⟨k, _, rfl⟩ := hc
    rfl
  · intro c hc
    simp only [batchSize, jsParsedCount]
    rw [if_neg hc]

theorem handler_batch_count_witness :
    (acmeReq.method = "POST" ∧ acmeReq.name = some "Acme" ∧ jsTrim "Acme" ≠ "")
    ∧ (handler acmeReq zeroStream2 noUuids 0).status = 200 :=
  ⟨⟨rfl, rfl, by decide⟩,
   (handler_batch_count acmeReq zeroStream2 noUuids 0 "Acme" rfl rfl
      (by decide)).1⟩

/-- Claim C6: a POST `/api/generate` request whose name is missing or
whitespace-only after trimming is rejected with status 400, a human-readable
error message, and no `logos` field (no partial results). -/
theorem handler_rejects_blank_name
    (req : Req) (σ : ℕ → ℕ → ℚ) (uu : ℕ → String) (now : ℤ)
    (hm : req.method = "POST")
    (hbad : req.name = none ∨ ∃ n, req.name = some n ∧ jsTrim n = "") :
    (handler req σ uu now).status = 400
    ∧ (handler req σ uu now).error = some "A logo name is required."
    ∧ (handler req σ uu now).logos = none := by
  have hh : handler req σ uu now = ⟨400, some "A logo name is required.", none, none⟩ := by
    unfold handler
    rw [hm]
    rcases hbad with h | ⟨n, hn, hblank⟩
    · rw [h]
      simp
    · rw [hn]
      simp [hblank]
  exact ⟨by rw [hh], by rw [hh], by rw [hh]⟩

theorem handler_rejects_blank_name_witness :
    (blankReq.method = "POST" ∧ blankReq.name = some "   " ∧ jsTrim "   " = "")
    ∧ (handler blankReq zeroStream2 noUuids 0).status = 400 :=
  ⟨⟨rfl, rfl, by decide⟩,
   (handler_rejects_blank_name blankReq zeroStream2 noUuids 0 rfl
      (Or.inr ⟨"   ", rfl, by decide⟩)).1⟩

/-- Claim C9 counterexample: an OPTIONS request is not POST, yet the handler
answers it with status 204 (CORS preflight), not 405. -/
theorem options_request_returns_204 :
    optionsReq.method ≠ "POST"
    ∧ (handler optionsReq zeroStream2 noUuids 0).status = 204
    ∧ (204 : ℕ) ≠ 405 := by
  exact ⟨by decide, rfl, by decide⟩

/-- Claim C9 (amended): every request whose method is neither POST nor
OPTIONS (the CORS preflight, which gets 204) receives status 405 with an
error body and no logos. -/
theorem non_post_non_options_is_405
    (req : Req) (σ : ℕ → ℕ → ℚ) (uu : ℕ → String) (now : ℤ)
    (hm : req.method ≠ "POST") (ho : req.method ≠ "OPTIONS") :
    (handler req σ uu now).status = 405
    ∧ (handler req σ uu now).error = some "Method not allowed"
    ∧ (handler req σ uu now).logos = none := by
  have hh : handler req σ uu now = ⟨405, some "Method not allowed", none, none⟩ := by
    unfold handler
    rw [if_neg ho, if_pos hm]
  exact ⟨by rw [hh], by rw [hh], by rw [hh]⟩

theorem non_post_non_options_is_405_witness :
    (getReq.method ≠ "POST" ∧ getReq.method ≠ "OPTIONS")
    ∧ (handler getReq zeroStream2 noUuids 0).status = 405 :=
  ⟨⟨by decide, by decide⟩,
   (non_post_non_options_is_405 getReq zeroStream2 noUuids 0 (by decide)
      (by decide)).1⟩

/-- Claim C7 (amended): the 2D renderer is deterministic — the same
configuration and target size always produce the same sequence of drawing
calls (hence pixel-identical output) — for every configuration whose
background pattern is not `"circuits"`; the `"circuits"` pattern places its
motifs with fresh `Math.random()` draws on every invocation. -/
theorem drawLogo_deterministic_without_circuits
    (M : JsMath) (cfg : LogoConfig) (size : ℚ) (σ1 σ2 : ℕ → ℚ)
    (h : cfg.pattern ≠ "circuits") :
    drawLogo M cfg size σ1 = drawLogo M cfg size σ2 := by
  have hp := drawPattern_det M size cfg.pattern cfg.palette.primary σ1 σ2 h
  simp only [drawLogo]
  rw [hp]

theorem drawLogo_deterministic_without_circuits_witness :
    dotsCfg.pattern ≠ "circuits"
    ∧ drawLogo mathZero dotsCfg 100 zeroStream
        = drawLogo mathZero dotsCfg 100 (fun _ => 1/2) :=
  ⟨by decide,
   drawLogo_deterministic_without_circuits mathZero dotsCfg 100 zeroStream
     (fun _ => 1/2) (by decide)⟩

/-- Claim C7 counterexample: with the `"circuits"` pattern, two invocations
of the 2D renderer on the same configuration and size, whose `Math.random()`
draws differ (all-0 versus all-1/2, both legal), issue different drawing
calls — the first circuit motif is drawn at (0,0) in one trace and at
(50,50) in the other — so the output is not pixel-identical. -/
theorem drawLogo_circuits_nondeterministic :
    drawLogo mathZero circCfg 100 zeroStream
      ≠ drawLogo mathZero circCfg 100 (fun _ => 1/2) := by
  intro h
  have h2 := congrArg (fun l => l.get? 8) h
  simp [drawLogo, drawPattern, circCfg, zeroStream] at h2

/-- Claim C8 (amended): the SVG export contains the literal uppercased brand
name and the literal tagline `"BRAND"` (each at least once — not exactly
once: a name whose uppercase form is `"BRAND"` appears twice), its drawn main
figure is a `<circle>` element regardless of the configuration's `shape`
field, and the output depends only on the configuration's name, palette
colors and letterSpacing. -/
theorem svg_export_contents (cfg cfg' : LogoConfig)
    (h1 : cfg'.name = cfg.name) (h2 : cfg'.palette = cfg.palette)
    (h3 : cfg'.letterSpacing = cfg.letterSpacing) :
    (∃ a b : String, downloadLogoAsSVG cfg = a ++ jsToUpper cfg.name ++ b)
    ∧ (∃ a b : String, downloadLogoAsSVG cfg = a ++ "BRAND" ++ b)
    ∧ (∃ a b : String, downloadLogoAsSVG cfg
        = a ++ "  <circle cx=\"300\" cy=\"300\" r=\"200\" fill=\"url(#fill)\" stroke=\"" ++ b)
    ∧ downloadLogoAsSVG cfg' = downloadLogoAsSVG cfg := by
  refine ⟨⟨svgHead cfg.name cfg.palette cfg.letterSpacing, svgRest cfg.palette, rfl⟩,
    ?_, ?_, ?_⟩
  · refine ⟨svgHead cfg.name cfg.palette cfg.letterSpacing ++ jsToUpper cfg.name
      ++ svgS9 ++ cfg.palette.secondary ++ svgS10, svgS11, ?_⟩
    simp only [downloadLogoAsSVG, svgContent, svgRest, String.append_assoc]
  · refine ⟨svgS1 ++ cfg.palette.primary ++ svgS2 ++ cfg.palette.secondary
      ++ svgS3 ++ cfg.palette.bg ++ svgS4,
      cfg.palette.primary ++ svgCircleTail ++ cfg.palette.accent ++ svgS5
      ++ qStr (svgFontSize cfg.name) ++ svgS6 ++ qStr (lsOr2 cfg.letterSpacing)
      ++ svgS7 ++ cfg.palette.primary ++ svgS8 ++ jsToUpper cfg.name
      ++ svgRest cfg.palette, ?_⟩
    simp only [downloadLogoAsSVG, svgContent, svgHead, svgCircleHead,
      String.append_assoc]
  · simp only [downloadLogoAsSVG, h1, h2, h3]

theorem svg_export_contents_witness :
    (brandCfgStar.name = brandCfg.name ∧ brandCfgStar.palette = brandCfg.palette
      ∧ brandCfgStar.letterSpacing = brandCfg.letterSpacing
      ∧ brandCfgStar.shape ≠ brandCfg.shape)
    ∧ downloadLogoAsSVG brandCfgStar = downloadLogoAsSVG brandCfg :=
  ⟨⟨rfl, rfl, rfl, by decide⟩,
   (svg_export_contents brandCfg brandCfgStar rfl rfl rfl).2.2.2⟩

set_option maxRecDepth 20000 in
/-- Claim C8 counterexample: for the brand name `"Brand"` the uppercased name
is `"BRAND"`, which occurs twice in the SVG output (once as the name text,
once as the fixed tagline) — so neither the name nor the tagline occurs
exactly once. -/
theorem svg_brand_name_twice :
    jsToUpper brandCfg.name = "BRAND"
    ∧ occCount "BRAND".data (downloadLogoAsSVG brandCfg).data = 2
    ∧ (2 : ℕ) ≠ 1 := by
  have hfs : svgFontSize "Brand" = 64 := by
    unfold svgFontSize
    rw [show ("Brand".length) = 5 from rfl]
    norm_num
  have h64 : qStr (svgFontSize "Brand") = "64" := by
    rw [hfs]
    decide
  have hls : qStr (lsOr2 2) = "2" := by
    have h2 : lsOr2 2 = 2 := by
      unfold lsOr2
      norm_num
    rw [h2]
    decide
  refine ⟨by decide, ?_, by decide⟩
  have hx : downloadLogoAsSVG brandCfg
      = svgContent "Brand" ⟨"#FF0000", "#00FF00", "#0000FF", "#000000", "vibrant"⟩ 2 := rfl
  rw [hx]
  simp only [svgContent, svgHead, svgRest, h64, hls]
  decide

end LogoMaker
